import Mathlib

/-!
Shallow embedding of the MyCord chat client (src/client.c, src/clientAi.c,
src/clientOp.c) for checking the natural-language specification.

Strings are modelled as lists of byte values (`List Nat`, each element the
value of one `unsigned char`); a C string is the list of its bytes before the
terminating NUL.  Fixed-size wire records are modelled field-wise; `memcmp`
equality of two records corresponds to structural equality of the model
(the clients zero the whole struct before filling it, so equal fields mean
equal bytes).
-/

namespace MyCord

/-- Bytes of a Lean string literal: used to write concrete C string constants. -/
def strBytes (s : String) : List Nat := s.toList.map Char.toNat

/-! ## Protocol: enum MessageType and message_t (client.c:20-34, clientOp.c:18-32) -/

def LOGIN : Nat := 0
def LOGOUT : Nat := 1
/-- `MESSAGE_SENT` in client.c / clientAi.c, `MESSAGE_SEND` in clientOp.c; value 2 in all three. -/
def MESSAGE_SENT : Nat := 2
def MESSAGE_RECV : Nat := 10
def DISCONNECT : Nat := 12
def SYSTEM : Nat := 13

/-- `message_t`: packed wire record.  `m_type` and `timeStamp` are stored in
network byte order on the wire; the model keeps the host-order values (the
clients always convert with `htonl`/`ntohl` at the boundary).  `username` is
the 32-byte field's content, `message` the 1024-byte field's content. -/
structure Message where
  m_type : Nat
  timeStamp : Nat
  username : List Nat
  message : List Nat
deriving DecidableEq, Repr

/-- `sizeof(message_t)` = 4 + 4 + 32 + 1024 bytes. -/
def MSG_SIZE : Nat := 1064

/-! ## TUI state (client.c:112-191, clientAi.c:108-188) -/

def TUI_MAX_LINES : Nat := 600
def HIST_MAX : Nat := 64

/-- `tui_line_t` (client.c:115-120).  `timebuf`, `username` and `text` are byte
strings; the `strncpy` size truncation in `tui_add_line_locked` is immaterial
to the claims checked here and is not modelled. -/
structure TuiLine where
  timebuf : List Nat
  username : List Nat
  text : List Nat
  kind : Nat
deriving DecidableEq, Repr

/-- `tui_add_line_locked` (client.c:162-183, clientAi.c:157-179): append to
`g_lines`; at capacity, `memmove` shifts everything down one slot (dropping
the oldest line) and the new line goes in the last slot. -/
def tui_add_line_locked (L : TuiLine) (lines : List TuiLine) : List TuiLine :=
  if lines.length < TUI_MAX_LINES then lines ++ [L] else lines.tail ++ [L]

/-- The lock-protected display state: `g_lines` plus `g_scroll`. -/
structure TuiState where
  lines : List TuiLine
  scroll : Nat
deriving DecidableEq, Repr

/-- `tui_add_line` (client.c:185-191, clientAi.c:181-188): append under the
lock and, when the user has scrolled away from the bottom (`g_scroll > 0`),
increment `g_scroll` by one. -/
def tui_add_line (L : TuiLine) (st : TuiState) : TuiState :=
  { lines := tui_add_line_locked L st.lines,
    scroll := if st.scroll > 0 then st.scroll + 1 else st.scroll }

/-! ## Renderer window (client.c tui_render:426-431, clientAi.c tui_render:282-287)

```
int total = g_line_count;
int start = total - msg_h - g_scroll;
if (start < 0) start = 0;
int end = start + msg_h;
if (end > total) end = total;
```
Natural-number truncated subtraction `total - msg_h - scroll` equals the C
`max(0, total - msg_h - scroll)`. -/

def render_start (total msg_h scroll : Nat) : Nat := total - msg_h - scroll

def render_end (total msg_h scroll : Nat) : Nat :=
  min (render_start total msg_h scroll + msg_h) total

/-- The indices of the buffer slots the renderer paints, in paint order:
`[start, end)` as computed by `tui_render`. -/
def painted_interval (total msg_h scroll : Nat) : List Nat :=
  List.range' (render_start total msg_h scroll)
    (render_end total msg_h scroll - render_start total msg_h scroll)

/-- Modelled from the spec: the windowing formula the spec states for
`visible_window(height)` — the index interval `[len-height-scroll, len-scroll)`
clamped to `[0, len)`.  In truncated Nat arithmetic the clamped lower bound is
`len - height - scroll` and the clamped upper bound is `len - scroll`. -/
def spec_window_interval (total msg_h scroll : Nat) : List Nat :=
  List.range' (total - msg_h - scroll) ((total - scroll) - (total - msg_h - scroll))

/-- The lines `tui_render` paints (the buffer entries at the painted indices):
drop everything before `start`, then paint at most `msg_h` rows. -/
def visible_lines (st : TuiState) (msg_h : Nat) : List TuiLine :=
  (st.lines.drop (render_start st.lines.length msg_h st.scroll)).take msg_h

/-! ## Send history (client.c tui_hist_push:138-149, clientAi.c:133-144) -/

/-- `tui_hist_push`: ignore empty strings, skip a push identical to the most
recent entry, evict the oldest entry when the 64-slot history is full.
(The `strncpy` copies at most 1023 bytes; call sites only ever pass the edit
buffer, which holds at most 1023 bytes, so the truncation is a no-op.) -/
def tui_hist_push (s : List Nat) (hist : List (List Nat)) : List (List Nat) :=
  if s = [] then hist
  else if hist.getLast? = some s then hist
  else if hist.length < HIST_MAX then hist ++ [s]
  else hist.tail ++ [s]

/-! ## Outgoing-message validation -/

/-- `is_ascii_printable_strict` (client.c:811-818, clientAi.c:682-690):
reject byte 27 (ESC) and any byte outside the printable range 32..126. -/
def is_ascii_printable_strict (s : List Nat) : Bool :=
  s.all fun c => !(c == 27) && !(c < 32 || 126 < c)

/-- `msg_valid` (clientOp.c:115-124): 1..1023 bytes, printable ASCII only. -/
def msg_valid (s : List Nat) : Bool :=
  if s.length = 0 || s.length > 1023 then false
  else s.all fun c => !(c < 32 || 126 < c)

/-- `is_local_command` (client.c:820-826, clientOp.c:378, clientAi.c:692-698). -/
def is_local_command (s : List Nat) : Bool :=
  s = strBytes "!disconnect" || s = strBytes "!disconect" ||
  s = strBytes "!gravemind" || s = strBytes "!spartan" ||
  s = strBytes "!help"

/-! ## full_read / perform_full_read (clientOp.c:91-104, client.c:683-703)

The underlying `read(2)` calls are modelled as a finite schedule of events:
a call either returns some bytes (`data`, at most the requested count — the
model caps a larger chunk at the requested `n - total_read`), is interrupted
by a signal (`intr`, read returns -1 with errno EINTR), or fails (`fail`,
read returns -1 with another errno).  A `data []` event is a read returning 0,
i.e. end of file; an exhausted schedule likewise stands for a source that has
reached EOF (every further read returns 0). -/

inductive ReadEv where
  | data (bs : List Nat)
  | intr
  | fail
deriving DecidableEq, Repr

/-- Result of the full-read loop: `ok bs` models returning `(ssize_t)total_read`
with the accumulated bytes `bs`; `err` models returning -1. -/
inductive ReadResult where
  | ok (bs : List Nat)
  | err
deriving DecidableEq, Repr

/-- The accumulation loop shared by `full_read` (clientOp.c:91-104) and
`perform_full_read` (client.c:683-703, clientAi.c:536-560): loop while fewer
than `n` bytes have been accumulated; retry on EINTR; stop short on a read
returning 0 (EOF); fail on any other read error. -/
def full_read_loop (n : Nat) (acc : List Nat) : List ReadEv → ReadResult
  | [] => .ok acc
  | .intr :: rest => if n ≤ acc.length then .ok acc else full_read_loop n acc rest
  | .fail :: _ => if n ≤ acc.length then .ok acc else .err
  | .data [] :: _ => .ok acc
  | .data (b :: bs) :: rest =>
    if n ≤ acc.length then .ok acc
    else full_read_loop n (acc ++ (b :: bs).take (n - acc.length)) rest

/-- `full_read(fd, buf, n)` against a schedule of read events. -/
def full_read (n : Nat) (sched : List ReadEv) : ReadResult :=
  full_read_loop n [] sched

/-- `perform_full_read` (client.c / clientAi.c) is byte-for-byte the same
accumulation loop as clientOp.c's `full_read`. -/
def perform_full_read (n : Nat) (sched : List ReadEv) : ReadResult :=
  full_read n sched

/-- All the data bytes a schedule can deliver, in order. -/
def concat_data : List ReadEv → List Nat
  | [] => []
  | .data bs :: rest => bs ++ concat_data rest
  | _ :: rest => concat_data rest

/-! ## Receive loops

One iteration of a receive loop consumes the outcome of one
`full_read(fd, &msg, sizeof(msg))`: either an error (`rerr`, returned -1) or
`bytes r m`, meaning the call returned count `r` with the message buffer
holding (the reinterpretation of) `m`.  `r = 0` is EOF; `0 < r < MSG_SIZE` is
a short read, in which case `m` is whatever partial/stale bytes the buffer
holds. -/

inductive ReadOutcome where
  | bytes (r : Nat) (m : Message)
  | rerr
deriving DecidableEq, Repr

/-- State of clientOp.c's `receive_thread` (clientOp.c:237-299) plus the
`got_disconnect` flag it shares with `main`.  `printed` records the inbound
frames rendered to stdout, in order; `stopped` records that the thread's
`while` loop has been left by `break` or by `running` turning false. -/
structure OpRecvState where
  printed : List Message
  got_disconnect : Bool
  running : Bool
  stopped : Bool
deriving DecidableEq, Repr

/-- One iteration of clientOp.c's `receive_thread` (clientOp.c:241-296):
read error → fatal stop; EOF → stop; a count other than `sizeof(msg)` →
"protocol short read", fatal stop with nothing decoded; otherwise classify
`ntohl(msg.m_type)` and print MESSAGE_RECV / SYSTEM lines, or print the
DISCONNECT line, set `got_disconnect`, clear `running` and stop.  (Unknown
kinds print nothing: the if/else chain has no final else.) -/
def clientOp_recv_step (st : OpRecvState) (o : ReadOutcome) : OpRecvState :=
  if st.stopped || !st.running then st
  else
    match o with
    | .rerr => { st with running := false, stopped := true }
    | .bytes r m =>
      if r = 0 then { st with running := false, stopped := true }
      else if r ≠ MSG_SIZE then { st with running := false, stopped := true }
      else if m.m_type = MESSAGE_RECV then { st with printed := st.printed ++ [m] }
      else if m.m_type = SYSTEM then { st with printed := st.printed ++ [m] }
      else if m.m_type = DISCONNECT then
        { st with printed := st.printed ++ [m], got_disconnect := true,
                  running := false, stopped := true }
      else st

def clientOp_recv_init : OpRecvState :=
  { printed := [], got_disconnect := false, running := true, stopped := false }

def clientOp_recv_run (os : List ReadOutcome) : OpRecvState :=
  os.foldl clientOp_recv_step clientOp_recv_init

/-- State of client.c's `receive_messages_thread` in TUI mode
(client.c:725-807): the shared display state, the one-frame duplicate guard
(`last_msg` paired with `has_last`, modelled as an `Option`), the shared
`running` flag, and whether the loop has been left. -/
structure TuiRecvState where
  tui : TuiState
  last_msg : Option Message
  running : Bool
  stopped : Bool
deriving DecidableEq, Repr

/-- The display line client.c's TUI receive path builds for an accepted frame
(client.c:766-783).  `timefmt` stands for `strftime("%H:%M:%S", localtime(t))`,
which the model keeps abstract. -/
def classify_tui_line (timefmt : Nat → List Nat) (m : Message) : TuiLine :=
  if m.m_type = MESSAGE_RECV then
    { timebuf := timefmt m.timeStamp, username := m.username, text := m.message,
      kind := MESSAGE_RECV }
  else if m.m_type = SYSTEM then
    { timebuf := timefmt m.timeStamp, username := strBytes "UNSC", text := m.message,
      kind := SYSTEM }
  else if m.m_type = DISCONNECT then
    { timebuf := timefmt m.timeStamp, username := strBytes "DISCONNECT", text := m.message,
      kind := DISCONNECT }
  else
    { timebuf := timefmt m.timeStamp, username := strBytes "System", text := m.message,
      kind := m.m_type }

/-- "Server has disconnected" system line (client.c:744). -/
def server_disconnected_line : TuiLine :=
  { timebuf := strBytes "SYSTEM", username := strBytes "UNSC",
    text := strBytes "Server has disconnected", kind := SYSTEM }

/-- "Could not read from server" error line (client.c:754). -/
def read_error_line : TuiLine :=
  { timebuf := strBytes "SYSTEM", username := strBytes "ERROR",
    text := strBytes "Could not read from server", kind := SYSTEM }

/-- One iteration of client.c's `receive_messages_thread` in TUI mode
(client.c:737-785; clientAi.c:602-653 is the same logic): read error → error
line, leave the loop (`running` is NOT cleared on this branch); EOF → system
line, clear `running`, leave; otherwise — with no check that `r` equals
`sizeof(msg)` — apply the one-frame duplicate guard (client.c:762-764), then
record the frame in `last_msg` and classify it into exactly one display line;
a DISCONNECT frame additionally clears `running`. -/
def clientTui_recv_step (timefmt : Nat → List Nat) (st : TuiRecvState)
    (o : ReadOutcome) : TuiRecvState :=
  if st.stopped || !st.running then st
  else
    match o with
    | .rerr => { st with tui := tui_add_line read_error_line st.tui, stopped := true }
    | .bytes r m =>
      if r = 0 then
        { st with tui := tui_add_line server_disconnected_line st.tui,
                  running := false, stopped := true }
      else if st.last_msg = some m then st
      else if m.m_type = DISCONNECT then
        { st with tui := tui_add_line (classify_tui_line timefmt m) st.tui,
                  last_msg := some m, running := false }
      else
        { st with tui := tui_add_line (classify_tui_line timefmt m) st.tui,
                  last_msg := some m }

def clientTui_recv_init : TuiRecvState :=
  { tui := { lines := [], scroll := 0 }, last_msg := none, running := true,
    stopped := false }

def clientTui_recv_run (timefmt : Nat → List Nat) (os : List ReadOutcome) : TuiRecvState :=
  os.foldl (clientTui_recv_step timefmt) clientTui_recv_init

/-! ## Shutdown paths: who writes a LOGOUT frame -/

/-- The LOGOUT frame clientOp.c's `main` builds (clientOp.c:405-408): zeroed
record with only `m_type` set. -/
def logout_frame_op : Message :=
  { m_type := LOGOUT, timeStamp := 0, username := [], message := [] }

/-- clientOp.c:401-409: after its input loop ends, `main` writes a single
best-effort LOGOUT frame — but only if the server did not DISCONNECT us
(`if (!got_disconnect)`). -/
def clientOp_shutdown_writes (got_disconnect : Bool) : List Message :=
  if got_disconnect then [] else [logout_frame_op]

/-- The LOGOUT frame client.c's `main` builds (client.c:1240-1245;
clientAi.c:1104-1109 differs only in the message text). -/
def logout_frame_tui (uname : List Nat) : Message :=
  { m_type := LOGOUT, timeStamp := 0, username := uname.take 31,
    message := strBytes "User has disconnected" }

/-- client.c:1238-1247 (and clientAi.c:1102-1112): after the input loop ends
— for any reason, including a server-sent DISCONNECT having cleared
`running` — `main` unconditionally writes one LOGOUT frame before shutting
the socket down.  There is no `got_disconnect` guard in this client. -/
def clientTui_shutdown_writes (uname : List Nat) : List Message :=
  [logout_frame_tui uname]

/-! ## clientOp.c stdin loop body (clientOp.c:362-399)

After a line has been read and its newline stripped, and after the local
`!disconnect` check, the loop validates with `msg_valid` and only on success
builds and writes a MESSAGE_SEND frame.  `write_ok` abstracts whether the
`full_write` succeeds. -/

/-- The MESSAGE_SEND frame clientOp.c builds (clientOp.c:390-393):
zeroed record, `m_type` set, message copied with `strncpy(..., 1023)`. -/
def send_frame_op (line : List Nat) : Message :=
  { m_type := MESSAGE_SENT, timeStamp := 0, username := [], message := line.take 1023 }

structure OpSendResult where
  writes : List Message
  /-- whether the stdin loop keeps iterating after this line -/
  continues : Bool
deriving DecidableEq, Repr

/-- One non-command line through clientOp.c's stdin loop (clientOp.c:382-398):
an invalid line is reported locally and never written, and the loop
`continue`s; a valid line is encoded and written, and the loop continues
exactly when the write succeeds. -/
def clientOp_send_step (line : List Nat) (write_ok : Bool) : OpSendResult :=
  if msg_valid line then
    { writes := [send_frame_op line], continues := write_ok }
  else
    { writes := [], continues := true }

/-! ## client.c TUI input loop (`tui_loop_send`, client.c:908-1047)

The loop is driven by the bytes `tui_try_read_byte` hands it.  The model
consumes a finite list of terminal bytes; an exhausted list corresponds to
the poll timing out forever after, which leaves the state unchanged.  The
result of each socket `write` is taken from the `wr` oracle list (an
exhausted oracle counts as success). -/

/-- Error lines the ENTER branch can add (client.c:961, 968, 979). -/
def err_too_long_line : TuiLine :=
  { timebuf := strBytes "SYSTEM", username := strBytes "ERROR",
    text := strBytes "Message is too long to send", kind := SYSTEM }

def err_non_ascii_line : TuiLine :=
  { timebuf := strBytes "SYSTEM", username := strBytes "ERROR",
    text := strBytes "Cannot send non-ASCII characters", kind := SYSTEM }

def err_write_line : TuiLine :=
  { timebuf := strBytes "SYSTEM", username := strBytes "ERROR",
    text := strBytes "Write error - connection lost", kind := SYSTEM }

def help_line : TuiLine :=
  { timebuf := strBytes "SYSTEM", username := strBytes "HELP",
    text := strBytes "Commands: !help !gravemind !spartan !disconnect", kind := SYSTEM }

def gravemind_switch_line : TuiLine :=
  { timebuf := strBytes "SYSTEM", username := strBytes "GRAVEMIND",
    text := strBytes "Switching to Gravemind interface...", kind := SYSTEM }

def spartan_switch_line : TuiLine :=
  { timebuf := strBytes "SYSTEM", username := strBytes "UNSC",
    text := strBytes "Switching to Spartan interface...", kind := SYSTEM }

/-- The MESSAGE_SEND frame client.c's TUI ENTER branch builds
(client.c:973-976): zeroed record, `m_type` set, message copied from
`g_input` (at most 1023 bytes plus the forced terminator). -/
def send_frame_tui (input : List Nat) : Message :=
  { m_type := MESSAGE_SENT, timeStamp := 0, username := [], message := input.take 1023 }

/-- State of `tui_loop_send`: the edit buffer `g_input`, the send history
`g_send_hist` with the local cursor `hist_idx`, the shared display state,
the `g_ui_mode` flag (0 = SPARTAN, 1 = GRAVEMIND), the shared `running`
flag, and the frames successfully written to the socket. -/
structure InputState where
  input : List Nat
  hist : List (List Nat)
  hist_idx : Nat
  tui : TuiState
  ui_mode : Nat
  running : Bool
  writes : List Message
deriving DecidableEq, Repr

/-- `tui_input_set` (client.c:866-870): `strncpy` of at most 1023 bytes. -/
def tui_input_set (s : List Nat) : List Nat := s.take 1023

/-- `run_local_command` (client.c:828-857), in TUI mode. -/
def run_local_command (s : List Nat) (st : InputState) : InputState :=
  if s = strBytes "!help" then { st with tui := tui_add_line help_line st.tui }
  else if s = strBytes "!gravemind" then
    { st with ui_mode := 1, tui := tui_add_line gravemind_switch_line st.tui }
  else if s = strBytes "!spartan" then
    { st with ui_mode := 0, tui := tui_add_line spartan_switch_line st.tui }
  else if s = strBytes "!disconnect" || s = strBytes "!disconect" then
    { st with running := false }
  else st

/-- The ENTER branch of `tui_loop_send` (client.c:944-989), returning the new
state together with the rest of the write oracle.  An empty edit buffer is a
no-op; a local command is dispatched and the buffer cleared; otherwise the
three validity checks each raise `flag` (the too-long and non-ASCII checks
also add their error lines), and only an unflagged message is written; a
successful write pushes the message to history and resets the history
cursor, a failed write adds an error line and clears `running`.  The edit
buffer is cleared in all of these cases. -/
def tui_enter (st : InputState) (wr : List Bool) : InputState × List Bool :=
  if st.input.length = 0 then (st, wr)
  else if is_local_command st.input then
    ({ run_local_command st.input st with input := [], hist_idx := st.hist.length }, wr)
  else
    let st1 := if st.input.length > 1023 then
        { st with tui := tui_add_line err_too_long_line st.tui } else st
    let st2 := if !is_ascii_printable_strict st.input then
        { st1 with tui := tui_add_line err_non_ascii_line st1.tui } else st1
    if st.input.length > 1023 || !is_ascii_printable_strict st.input then
      ({ st2 with input := [] }, wr)
    else
      let ok := wr.headD true
      if ok then
        let newhist := tui_hist_push st.input st2.hist
        ({ st2 with writes := st2.writes ++ [send_frame_tui st.input],
                    hist := newhist, hist_idx := newhist.length, input := [] }, wr.tail)
      else
        ({ st2 with tui := tui_add_line err_write_line st2.tui, running := false,
                    input := [] }, wr.tail)

/-- The arrow-key actions of the ESC branch (client.c:1002-1034), after the
two follow-up bytes `s1 s2` have been read.  UP with an empty edit buffer
scrolls up (unbounded); DOWN scrolls down with floor 0; with a non-empty
edit buffer the arrows move the history cursor and copy the selected entry
into the edit buffer (DOWN past the newest clears it).  Anything else is
consumed and discarded. -/
def tui_esc_action (s1 s2 : Nat) (st : InputState) : InputState :=
  if s1 = 91 then
    if s2 = 65 then
      if st.input.length = 0 then
        { st with tui := { st.tui with scroll := st.tui.scroll + 1 } }
      else
        let idx := if st.hist.length > 0 && st.hist_idx > 0 then st.hist_idx - 1
                   else st.hist_idx
        if idx < st.hist.length then
          { st with hist_idx := idx, input := tui_input_set (st.hist.getD idx []) }
        else
          { st with hist_idx := idx }
    else if s2 = 66 then
      if st.input.length = 0 then
        { st with tui := { st.tui with scroll := st.tui.scroll - 1 } }
      else
        let idx := if st.hist_idx < st.hist.length then st.hist_idx + 1 else st.hist_idx
        if idx = st.hist.length then
          { st with hist_idx := idx, input := [] }
        else if idx < st.hist.length then
          { st with hist_idx := idx, input := tui_input_set (st.hist.getD idx []) }
        else
          { st with hist_idx := idx }
    else st
  else st

mutual

/-- `tui_loop_send`'s key-handling cycle (client.c:932-1046) over a finite
byte stream.  ENTER is byte 10 or 13; BACKSPACE is 127 or 8 (a no-op on an
empty buffer, since `dropLast [] = []`); byte 27 hands the stream to the
ESC-sequence consumption below; bytes 32..126 are appended while capacity
(1023 bytes) remains; every other byte is ignored. -/
def tui_loop_send : List Nat → List Bool → InputState → InputState
  | [], _, st => st
  | c :: rest, wr, st =>
    if !st.running then st
    else if c = 10 || c = 13 then
      let p := tui_enter st wr
      tui_loop_send rest p.2 p.1
    else if c = 127 || c = 8 then
      tui_loop_send rest wr { st with input := st.input.dropLast }
    else if c = 27 then
      tui_esc_consume rest wr st
    else if 32 ≤ c && c ≤ 126 then
      tui_loop_send rest wr
        (if st.input.length < 1023 then { st with input := st.input ++ [c] } else st)
    else
      tui_loop_send rest wr st
termination_by bytes _ _ => bytes.length

/-- After a byte 27, `tui_loop_send` tries to read two follow-up bytes
(client.c:1003-1005); if either read times out (stream exhausted) the
sequence is dropped, otherwise the arrow action runs and the loop goes on.
No byte of the sequence is ever inserted into the edit buffer. -/
def tui_esc_consume : List Nat → List Bool → InputState → InputState
  | [], _, st => st
  | [_], _, st => st
  | s1 :: s2 :: r2, wr, st => tui_loop_send r2 wr (tui_esc_action s1 s2 st)
termination_by bytes _ _ => bytes.length

end

/-- The state `tui_loop_send` starts from: empty edit buffer, empty history
(`g_send_hist_len = 0`), cursor at the history end.  The display buffer
contents at entry are irrelevant to the input-state claims; the start-menu
phase (client.c:885-906) touches only `g_ui_mode`, `g_show_start_menu` and
`running`, never `g_input` or the history. -/
def input_init : InputState :=
  { input := [], hist := [], hist_idx := 0, tui := { lines := [], scroll := 0 },
    ui_mode := 0, running := true, writes := [] }

/-! ## Concrete fixtures for counterexamples and evaluations -/

/-- A server-sent DISCONNECT frame. -/
def disconnect_test_msg : Message :=
  { m_type := DISCONNECT, timeStamp := 0, username := strBytes "server",
    message := strBytes "kicked" }

/-- Buffer contents after a short read: partial new bytes over stale ones,
reinterpreted as a frame.  The concrete field values are arbitrary. -/
def short_read_msg : Message :=
  { m_type := MESSAGE_RECV, timeStamp := 0, username := strBytes "ghost",
    message := strBytes "partial bytes" }

/-- A MESSAGE_RECV frame used in the duplicate-delivery scenarios. -/
def recv_test_msg : Message :=
  { m_type := MESSAGE_RECV, timeStamp := 7, username := strBytes "alice",
    message := strBytes "hi" }

/-- A trivial stand-in for the strftime formatting parameter. -/
def no_timefmt : Nat → List Nat := fun _ => []

/-- Distinct display lines for the scroll-pin counterexample. -/
def cex_line (i : Nat) : TuiLine :=
  { timebuf := [], username := [], text := [i], kind := 10 }

/-- A display buffer at capacity (600 lines) scrolled far up. -/
def cex_full_buffer : TuiState :=
  { lines := (List.range 600).map cex_line, scroll := 596 }

/-- Appending a whole list of lines to an initially empty display buffer,
one `tui_add_line_locked` at a time. -/
def tui_add_lines (ls : List TuiLine) : List TuiLine :=
  ls.foldl (fun b l => tui_add_line_locked l b) []

/-- A hypothetical input-loop state whose edit buffer holds an ESC byte
(unreachable from the keyboard, per C9, but a legal state value). -/
def cex_invalid_input_state : InputState :=
  { input := [104, 27, 105], hist := [], hist_idx := 0,
    tui := { lines := [], scroll := 0 }, ui_mode := 0, running := true, writes := [] }

/-- A valid-to-send input-loop state (edit buffer "hello"). -/
def cex_valid_input_state : InputState :=
  { input := strBytes "hello", hist := [], hist_idx := 0,
    tui := { lines := [cex_line 9], scroll := 4 }, ui_mode := 0, running := true,
    writes := [] }

/-- The duplicate-guard state after `recv_test_msg` has just been accepted. -/
def cex_recv_state : TuiRecvState :=
  { tui := { lines := [classify_tui_line no_timefmt recv_test_msg], scroll := 0 },
    last_msg := some recv_test_msg, running := true, stopped := false }

end MyCord

namespace MyCord

/-! ## Theorems -/

/-- C1: the claim holds on clientOp.c — a run ended by a server-sent
DISCONNECT sets `got_disconnect`, which suppresses the LOGOUT write, while a
run ended by the local `!disconnect` command (got_disconnect still false)
writes exactly one LOGOUT frame — but client.c (and clientAi.c) writes its
LOGOUT frame unconditionally at cleanup, so a run of that client ended by a
server-sent DISCONNECT still writes a LOGOUT to the socket afterward. -/
theorem c1_logout_after_server_disconnect :
    (clientOp_recv_run [.bytes MSG_SIZE disconnect_test_msg]).got_disconnect = true
  ∧ clientOp_shutdown_writes true = []
  ∧ clientOp_shutdown_writes false = [logout_frame_op]
  ∧ logout_frame_op.m_type = LOGOUT
  ∧ (clientTui_recv_run no_timefmt [.bytes MSG_SIZE disconnect_test_msg]).running = false
  ∧ ∀ uname : List Nat, (clientTui_shutdown_writes uname).map Message.m_type = [LOGOUT] := by
  refine ⟨by decide, by decide, by decide, by decide, by decide, fun uname => ?_⟩
  simp [clientTui_shutdown_writes, logout_frame_tui]

/-- C3: clientOp.c treats a short read (here 100 of the 1064 frame bytes
before EOF) as fatal — nothing is decoded or printed and `running` is
cleared — but client.c's receive loop has no such check: it decodes the
partial bytes, displays them as a frame, and keeps `running` true. -/
theorem c3_short_read_divergence :
    (clientOp_recv_run [.bytes 100 short_read_msg]).printed = []
  ∧ (clientOp_recv_run [.bytes 100 short_read_msg]).running = false
  ∧ (clientOp_recv_run [.bytes 100 short_read_msg]).stopped = true
  ∧ (clientTui_recv_run no_timefmt [.bytes 100 short_read_msg]).tui.lines =
      [classify_tui_line no_timefmt short_read_msg]
  ∧ (clientTui_recv_run no_timefmt [.bytes 100 short_read_msg]).running = true := by
  decide

/-- C2 counterexample: with 3 buffered lines, window height 5 and scroll
offset 1, the renderer paints indices [0,1,2] (including the newest line),
while the spec's clamped interval [len-h-s, len-s) is [0,1] — so the painted
set is not the clamped interval the claim states. -/
theorem c2_window_counterexample :
    painted_interval 3 5 1 ≠ spec_window_interval 3 5 1
  ∧ painted_interval 3 5 1 = [0, 1, 2]
  ∧ spec_window_interval 3 5 1 = [0, 1] := by
  decide

/-- C2 (amended): whenever the scroll offset is 0 or the window fits above
the scroll offset (msg_h + scroll ≤ len), the painted indices are exactly the
spec's clamped interval [len-h-s, len-s); in the remaining region
(0 < scroll and len < msg_h + scroll) the start clamps to 0 and the end is
recomputed from it, so the code paints exactly the indices [0, min(msg_h, len))
— which can extend past len-scroll; and the painted window never exceeds the
window height. -/
theorem c2_visible_window_amended (total msg_h scroll : Nat) (h1 : 1 ≤ msg_h) :
    (scroll = 0 ∨ msg_h + scroll ≤ total →
      painted_interval total msg_h scroll = spec_window_interval total msg_h scroll)
  ∧ (0 < scroll → total < msg_h + scroll →
      painted_interval total msg_h scroll = List.range' 0 (min msg_h total))
  ∧ (painted_interval total msg_h scroll).length ≤ msg_h := by
  refine ⟨?_, ?_, ?_⟩
  · intro h2
    unfold painted_interval spec_window_interval render_end render_start
    have hcount : min (total - msg_h - scroll + msg_h) total - (total - msg_h - scroll)
        = (total - scroll) - (total - msg_h - scroll) := by
      rcases Nat.le_total (total - msg_h - scroll + msg_h) total with h | h
      · rw [Nat.min_eq_left h]; omega
      · rw [Nat.min_eq_right h]; omega
    rw [hcount]
  · intro hs hlt
    unfold painted_interval render_end render_start
    have h0 : total - msg_h - scroll = 0 := by omega
    rw [h0, Nat.zero_add, Nat.sub_zero]
  · unfold painted_interval render_end render_start
    rw [List.length_range']
    rcases Nat.le_total (total - msg_h - scroll + msg_h) total with h | h
    · rw [Nat.min_eq_left h]; omega
    · rw [Nat.min_eq_right h]; omega

/-- C2 witness: the amended window equivalence where the spec formula
applies (len 10, h 4, s 3), and the clamped-start behavior in the divergent
region (len 7, h 5, s 3, where the code paints [0,5) and omits the newest
line). -/
theorem c2_visible_window_witness :
    painted_interval 10 4 3 = spec_window_interval 10 4 3
  ∧ painted_interval 7 5 3 = List.range' 0 (min 5 7)
  ∧ (painted_interval 10 4 3).length ≤ 4 :=
  ⟨(c2_visible_window_amended 10 4 3 (by decide)).1 (Or.inr (by decide)),
   (c2_visible_window_amended 7 5 3 (by decide)).2.1 (by decide) (by decide),
   (c2_visible_window_amended 10 4 3 (by decide)).2.2⟩

set_option maxRecDepth 4000 in
/-- C7 counterexample: with the buffer at capacity (600 lines) and scroll
596, window height 5, appending a line does move scroll to 597 as claimed,
but the oldest line — visible before the append — has been evicted and is no
longer among the visible lines, so the visible window is not preserved. -/
theorem c7_scroll_pin_counterexample :
    (tui_add_line (cex_line 600) cex_full_buffer).scroll = 597
  ∧ cex_line 0 ∈ visible_lines cex_full_buffer 5
  ∧ cex_line 0 ∉ visible_lines (tui_add_line (cex_line 600) cex_full_buffer) 5 := by
  decide

/-- Folding `tui_add_line_locked` over a list keeps exactly the newest
`TUI_MAX_LINES` entries of the concatenation. -/
lemma tui_fold_add_drop (ls : List TuiLine) :
    ∀ buf : List TuiLine, buf.length ≤ TUI_MAX_LINES →
      ls.foldl (fun b l => tui_add_line_locked l b) buf
        = (buf ++ ls).drop (buf.length + ls.length - TUI_MAX_LINES) := by
  induction ls with
  | nil =>
    intro buf h
    simp [Nat.sub_eq_zero_of_le h]
  | cons l ls ih =>
    intro buf h
    simp only [List.foldl_cons]
    by_cases hb : buf.length < TUI_MAX_LINES
    · have step : tui_add_line_locked l buf = buf ++ [l] := by
        simp [tui_add_line_locked, hb]
      have hlen1 : (buf ++ [l]).length ≤ TUI_MAX_LINES := by
        rw [List.length_append, List.length_singleton]
        omega
      rw [step, ih (buf ++ [l]) hlen1]
      have hamount : (buf ++ [l]).length + ls.length - TUI_MAX_LINES
          = buf.length + (l :: ls).length - TUI_MAX_LINES := by
        rw [List.length_append, List.length_singleton, List.length_cons]
        omega
      rw [hamount, List.append_assoc, List.singleton_append]
    · have hb600 : buf.length = TUI_MAX_LINES := le_antisymm h (Nat.le_of_not_lt hb)
      have hTpos : 0 < TUI_MAX_LINES := by decide
      have hne : buf ≠ [] := by
        intro e
        rw [e] at hb600
        rw [List.length_nil] at hb600
        omega
      have step : tui_add_line_locked l buf = buf.tail ++ [l] := by
        simp [tui_add_line_locked, hb]
      have htl : buf.tail.length = buf.length - 1 := List.length_tail _
      have hlen1 : (buf.tail ++ [l]).length ≤ TUI_MAX_LINES := by
        rw [List.length_append, List.length_singleton, htl]
        omega
      rw [step, ih (buf.tail ++ [l]) hlen1]
      obtain ⟨a, buf2, rfl⟩ := List.exists_cons_of_ne_nil hne
      have hlen2 : buf2.length + 1 = TUI_MAX_LINES := by
        rw [List.length_cons] at hb600
        exact hb600
      simp only [List.tail_cons]
      have hA : (buf2 ++ [l]).length + ls.length - TUI_MAX_LINES = ls.length := by
        rw [List.length_append, List.length_singleton]
        omega
      have hB : (a :: buf2).length + (l :: ls).length - TUI_MAX_LINES
          = ls.length + 1 := by
        rw [List.length_cons, List.length_cons]
        omega
      rw [hA, hB]
      have hsplit : a :: buf2 ++ l :: ls = a :: (buf2 ++ l :: ls) := rfl
      rw [hsplit, List.drop_succ_cons, List.append_assoc, List.singleton_append]

/-- C6: appending `C + k` lines (k ≥ 1) to an initially empty display buffer
of capacity `C = TUI_MAX_LINES = 600` leaves exactly the last `C` appended
lines, in arrival order (oldest survivor first); moreover one append never
takes a buffer of length ≤ C past C. -/
theorem c6_eviction (ls : List TuiLine) (k : Nat) (hk : 1 ≤ k)
    (hlen : ls.length = TUI_MAX_LINES + k) :
    tui_add_lines ls = ls.drop k
  ∧ (tui_add_lines ls).length = TUI_MAX_LINES
  ∧ ∀ (buf : List TuiLine) (L : TuiLine), buf.length ≤ TUI_MAX_LINES →
      (tui_add_line_locked L buf).length ≤ TUI_MAX_LINES := by
  have h1 : tui_add_lines ls = ls.drop k := by
    unfold tui_add_lines
    rw [tui_fold_add_drop ls [] (Nat.zero_le _)]
    simp only [List.nil_append, List.length_nil, Nat.zero_add]
    have hk2 : ls.length - TUI_MAX_LINES = k := by omega
    rw [hk2]
  refine ⟨h1, ?_, ?_⟩
  · rw [h1, List.length_drop]
    omega
  · intro buf L hb
    by_cases hcap : buf.length < TUI_MAX_LINES
    · have step : tui_add_line_locked L buf = buf ++ [L] := by
        simp [tui_add_line_locked, hcap]
      rw [step, List.length_append, List.length_singleton]
      omega
    · have step : tui_add_line_locked L buf = buf.tail ++ [L] := by
        simp [tui_add_line_locked, hcap]
      have htl : buf.tail.length = buf.length - 1 := List.length_tail _
      have hT : 0 < TUI_MAX_LINES := by decide
      rw [step, List.length_append, List.length_singleton, htl]
      omega

/-- C6 witness: 601 appends to the empty buffer keep the newest 600 lines. -/
theorem c6_eviction_witness :
    tui_add_lines (List.replicate 601 (cex_line 1)) =
      (List.replicate 601 (cex_line 1)).drop 1
  ∧ (tui_add_lines (List.replicate 601 (cex_line 1))).length = 600 := by
  have h := c6_eviction (List.replicate 601 (cex_line 1)) 1 (by decide)
    (by rw [List.length_replicate]; rfl)
  exact ⟨h.1, h.2.1⟩

/-- Membership in a take survives appending one element on the right. -/
lemma mem_take_append {x L : TuiLine} {xs : List TuiLine} {h : Nat}
    (hx : x ∈ xs.take h) : x ∈ (xs ++ [L]).take h := by
  rw [List.take_append_eq_append_take]
  exact List.mem_append_left _ hx

/-- C7 (amended): appending a line leaves `scroll = 0` unchanged and moves
`scroll = s > 0` to `s + 1`; and — provided the buffer is below capacity, or
the painted window starts strictly after the (evicted) oldest line — every
line visible before the append is still visible after it.  (When the buffer
is at capacity and the window is clamped at the oldest line, the evicted
line leaves the window: see the counterexample.) -/
theorem c7_scroll_pin_amended (st : TuiState) (L : TuiLine) (msg_h : Nat) :
    (st.scroll = 0 → (tui_add_line L st).scroll = 0)
  ∧ (st.scroll > 0 → (tui_add_line L st).scroll = st.scroll + 1)
  ∧ (st.scroll > 0 →
      (st.lines.length < TUI_MAX_LINES ∨ msg_h + st.scroll < st.lines.length) →
      ∀ x ∈ visible_lines st msg_h, x ∈ visible_lines (tui_add_line L st) msg_h) := by
  refine ⟨?_, ?_, ?_⟩
  · intro h0
    simp [tui_add_line, h0]
  · intro hs
    simp [tui_add_line, hs]
  · intro hs hcase x hx
    have hscroll : (tui_add_line L st).scroll = st.scroll + 1 := by
      simp [tui_add_line, hs]
    rcases hcase with hlt | hwin
    · -- no eviction: the new buffer is the old one with L appended
      have hlines : (tui_add_line L st).lines = st.lines ++ [L] := by
        simp [tui_add_line, tui_add_line_locked, hlt]
      unfold visible_lines at hx ⊢
      rw [hlines, hscroll]
      have hstart : (st.lines ++ [L]).length - msg_h - (st.scroll + 1)
          = st.lines.length - msg_h - st.scroll := by
        simp
        omega
      unfold render_start at hx ⊢
      rw [hstart]
      have hle : st.lines.length - msg_h - st.scroll ≤ st.lines.length := by omega
      rw [List.drop_append_of_le_length hle]
      exact mem_take_append hx
    · -- eviction: the oldest line is dropped but lies before the window
      have hge : ¬ st.lines.length < TUI_MAX_LINES ∨ st.lines.length < TUI_MAX_LINES := by
        tauto
      by_cases hcap : st.lines.length < TUI_MAX_LINES
      · -- same argument as the no-eviction case
        have hlines : (tui_add_line L st).lines = st.lines ++ [L] := by
          simp [tui_add_line, tui_add_line_locked, hcap]
        unfold visible_lines at hx ⊢
        rw [hlines, hscroll]
        have hstart : (st.lines ++ [L]).length - msg_h - (st.scroll + 1)
            = st.lines.length - msg_h - st.scroll := by
          simp
          omega
        unfold render_start at hx ⊢
        rw [hstart]
        have hle : st.lines.length - msg_h - st.scroll ≤ st.lines.length := by omega
        rw [List.drop_append_of_le_length hle]
        exact mem_take_append hx
      · have hlines : (tui_add_line L st).lines = st.lines.tail ++ [L] := by
          simp [tui_add_line, tui_add_line_locked, hcap]
        have hne : st.lines ≠ [] := by
          intro e
          rw [e] at hwin
          simp at hwin
        have hpos : 1 ≤ st.lines.length - msg_h - st.scroll := by omega
        unfold visible_lines at hx ⊢
        rw [hlines, hscroll]
        unfold render_start at hx ⊢
        have hstart : (st.lines.tail ++ [L]).length - msg_h - (st.scroll + 1)
            = st.lines.length - msg_h - st.scroll - 1 := by
          simp [List.length_tail]
          omega
        rw [hstart]
        have htail : st.lines.tail.drop (st.lines.length - msg_h - st.scroll - 1)
            = st.lines.drop (st.lines.length - msg_h - st.scroll) := by
          rw [← List.drop_one, List.drop_drop]
          congr 1
          omega
        have hle2 : st.lines.length - msg_h - st.scroll - 1 ≤ st.lines.tail.length := by
          simp [List.length_tail]
          omega
        rw [List.drop_append_of_le_length hle2, htail]
        exact mem_take_append hx

/-- C7 witness: a below-capacity buffer, scroll 2; the append moves scroll to
3 and the previously visible line stays visible. -/
theorem c7_scroll_pin_witness :
    (tui_add_line (cex_line 1) { lines := [cex_line 0], scroll := 2 }).scroll = 3
  ∧ cex_line 0 ∈ visible_lines (tui_add_line (cex_line 1)
      { lines := [cex_line 0], scroll := 2 }) 5 := by
  constructor
  · exact (c7_scroll_pin_amended { lines := [cex_line 0], scroll := 2 } (cex_line 1) 5).2.1
      (by decide)
  · exact (c7_scroll_pin_amended { lines := [cex_line 0], scroll := 2 } (cex_line 1) 5).2.2
      (by decide) (Or.inl (by decide)) (cex_line 0) (by decide)

/-- A Bool `List.all` is false as soon as one member fails the predicate. -/
lemma all_eq_false_of_mem {p : Nat → Bool} {s : List Nat} {c : Nat}
    (hc : c ∈ s) (hp : p c = false) : s.all p = false := by
  cases hall : s.all p with
  | false => rfl
  | true => exact absurd (List.all_eq_true.mp hall c hc) (by simp [hp])

/-- C4: outgoing-message validation — both clientOp.c's `msg_valid` and the
TUI clients' check built on `is_ascii_printable_strict` — accepts
"hello world" and rejects every 1024-byte string, the empty string, every
string containing byte 27, and every string containing a byte outside
32..126; a rejected line is never written to the socket and the session
keeps running, in clientOp.c's stdin loop and in client.c's TUI ENTER
branch alike. -/
theorem c4_send_validation :
    msg_valid (strBytes "hello world") = true
  ∧ is_ascii_printable_strict (strBytes "hello world") = true
  ∧ (∀ s : List Nat, s.length = 1024 → msg_valid s = false)
  ∧ msg_valid [] = false
  ∧ (∀ s : List Nat, 27 ∈ s →
      msg_valid s = false ∧ is_ascii_printable_strict s = false)
  ∧ (∀ (s : List Nat) (c : Nat), c ∈ s → c < 32 ∨ 126 < c →
      msg_valid s = false ∧ is_ascii_printable_strict s = false)
  ∧ (∀ (line : List Nat) (write_ok : Bool), msg_valid line = false →
      (clientOp_send_step line write_ok).writes = []
    ∧ (clientOp_send_step line write_ok).continues = true)
  ∧ (∀ (st : InputState) (wr : List Bool), st.running = true → st.input ≠ [] →
      is_local_command st.input = false →
      st.input.length > 1023 ∨ is_ascii_printable_strict st.input = false →
      (tui_loop_send [13] wr st).writes = st.writes
    ∧ (tui_loop_send [13] wr st).running = true
    ∧ (tui_loop_send [13] wr st).input = []) := by
  refine ⟨by decide, by decide, ?_, by decide, ?_, ?_, ?_, ?_⟩
  · intro s hs
    unfold msg_valid
    rw [hs]
    rfl
  · intro s h27
    constructor
    · unfold msg_valid
      split
      · rfl
      · exact all_eq_false_of_mem h27 (by decide)
    · exact all_eq_false_of_mem h27 (by decide)
  · intro s c hc hout
    have hp : (fun c => !(decide (c < 32) || decide (126 < c))) c = false := by
      rcases hout with h | h <;> simp [h]
    constructor
    · unfold msg_valid
      split
      · rfl
      · exact all_eq_false_of_mem hc hp
    · refine all_eq_false_of_mem hc ?_
      simp only [Bool.and_eq_false_iff]
      right
      simpa using hp
  · intro line write_ok hbad
    simp [clientOp_send_step, hbad]
  · intro st wr hrun hne hcmd hrej
    have hlen : ¬ st.input.length = 0 := by
      simpa [List.length_eq_zero] using hne
    rcases hrej with hlong | hprint
    · by_cases hpr : is_ascii_printable_strict st.input <;>
        simp [tui_loop_send, hrun, tui_enter, hlen, hcmd, hlong, hpr]
    · by_cases hlong : st.input.length > 1023 <;>
        simp [tui_loop_send, hrun, tui_enter, hlen, hcmd, hprint, hlong]

/-- C4 witness: concrete instances of each rejection, with no write and a
continuing session. -/
theorem c4_send_validation_witness :
    msg_valid (strBytes "hello world") = true
  ∧ msg_valid (List.replicate 1024 65) = false
  ∧ (msg_valid [104, 27, 105] = false ∧ is_ascii_printable_strict [104, 27, 105] = false)
  ∧ (msg_valid [104, 200] = false ∧ is_ascii_printable_strict [104, 200] = false)
  ∧ ((clientOp_send_step [104, 200] true).writes = []
      ∧ (clientOp_send_step [104, 200] true).continues = true)
  ∧ ((tui_loop_send [13] [] cex_invalid_input_state).writes = cex_invalid_input_state.writes
      ∧ (tui_loop_send [13] [] cex_invalid_input_state).running = true
      ∧ (tui_loop_send [13] [] cex_invalid_input_state).input = []) := by
  refine ⟨c4_send_validation.1, ?_, ?_, ?_, ?_, ?_⟩
  · exact c4_send_validation.2.2.1 _ (by rw [List.length_replicate])
  · exact c4_send_validation.2.2.2.2.1 _ (by decide)
  · exact c4_send_validation.2.2.2.2.2.1 _ 200 (by decide) (by decide)
  · exact c4_send_validation.2.2.2.2.2.2.1 [104, 200] true (by decide)
  · exact c4_send_validation.2.2.2.2.2.2.2 cex_invalid_input_state []
      (by decide) (by decide) (by decide) (Or.inr (by decide))

/-- C5: in client.c's TUI receive pipeline the one-frame duplicate guard
works exactly as claimed — after any processed frame the guard holds that
frame, a frame equal to it is discarded with no DisplayLine (a pair yields
exactly one line), and a frame differing from its predecessor is never
suppressed (exactly one DisplayLine is appended) — but clientOp.c's receive
loop has no duplicate guard at all: fed the same MESSAGE_RECV frame twice in
a row it prints the message twice. -/
theorem c5_dedup_divergence :
    (∀ (tf : Nat → List Nat) (st : TuiRecvState) (m : Message),
      st.running = true → st.stopped = false →
      (clientTui_recv_step tf st (.bytes MSG_SIZE m)).last_msg = some m)
  ∧ (∀ (tf : Nat → List Nat) (st : TuiRecvState) (m : Message),
      st.running = true → st.stopped = false → st.last_msg = some m →
      clientTui_recv_step tf st (.bytes MSG_SIZE m) = st)
  ∧ (∀ (tf : Nat → List Nat) (st : TuiRecvState) (m : Message),
      st.running = true → st.stopped = false → st.last_msg ≠ some m →
      (clientTui_recv_step tf st (.bytes MSG_SIZE m)).tui
        = tui_add_line (classify_tui_line tf m) st.tui)
  ∧ (∀ (tf : Nat → List Nat) (m : Message),
      (clientTui_recv_run tf [.bytes MSG_SIZE m, .bytes MSG_SIZE m]).tui.lines
        = [classify_tui_line tf m])
  ∧ (clientOp_recv_run [.bytes MSG_SIZE recv_test_msg,
        .bytes MSG_SIZE recv_test_msg]).printed = [recv_test_msg, recv_test_msg] := by
  refine ⟨?_, ?_, ?_, ?_, by decide⟩
  · intro tf st m hrun hstop
    by_cases hd : m.m_type = DISCONNECT <;>
      by_cases hl : st.last_msg = some m <;>
        simp [clientTui_recv_step, hrun, hstop, hd, hl, MSG_SIZE]
  · intro tf st m hrun hstop hl
    simp [clientTui_recv_step, hrun, hstop, hl, MSG_SIZE]
  · intro tf st m hrun hstop hl
    by_cases hd : m.m_type = DISCONNECT <;>
      simp [clientTui_recv_step, hrun, hstop, hd, hl, MSG_SIZE]
  · intro tf m
    by_cases hd : m.m_type = DISCONNECT <;>
      simp [clientTui_recv_run, clientTui_recv_step, clientTui_recv_init, hd,
        MSG_SIZE, tui_add_line, tui_add_line_locked, TUI_MAX_LINES]

/-- C5 witness: the guard state after accepting a frame, suppression of its
immediate repeat, and acceptance of a differing successor, at concrete
inputs. -/
theorem c5_dedup_witness :
    (clientTui_recv_step no_timefmt clientTui_recv_init
        (.bytes MSG_SIZE recv_test_msg)).last_msg = some recv_test_msg
  ∧ clientTui_recv_step no_timefmt cex_recv_state (.bytes MSG_SIZE recv_test_msg)
      = cex_recv_state
  ∧ (clientTui_recv_step no_timefmt cex_recv_state (.bytes MSG_SIZE disconnect_test_msg)).tui
      = tui_add_line (classify_tui_line no_timefmt disconnect_test_msg) cex_recv_state.tui := by
  refine ⟨?_, ?_, ?_⟩
  · exact c5_dedup_divergence.1 no_timefmt clientTui_recv_init recv_test_msg rfl rfl
  · exact c5_dedup_divergence.2.1 no_timefmt cex_recv_state recv_test_msg rfl rfl rfl
  · exact c5_dedup_divergence.2.2.1 no_timefmt cex_recv_state disconnect_test_msg rfl rfl
      (by decide)

/-- Under a schedule with no failures and no embedded EOF, the full-read
loop returns the first `n - acc.length` available bytes appended to the
accumulator. -/
lemma full_read_loop_ok (n : Nat) :
    ∀ (sched : List ReadEv) (acc : List Nat),
      (∀ e ∈ sched, e ≠ ReadEv.fail ∧ e ≠ ReadEv.data []) →
      full_read_loop n acc sched
        = .ok (acc ++ (concat_data sched).take (n - acc.length)) := by
  intro sched
  induction sched with
  | nil =>
    intro acc h
    simp [full_read_loop, concat_data]
  | cons e rest ih =>
    intro acc h
    have hrest : ∀ x ∈ rest, x ≠ ReadEv.fail ∧ x ≠ ReadEv.data [] :=
      fun x hx => h x (List.mem_cons_of_mem _ hx)
    cases e with
    | intr =>
      rw [show concat_data (ReadEv.intr :: rest) = concat_data rest from rfl]
      by_cases hn : n ≤ acc.length
      · rw [full_read_loop, if_pos hn, Nat.sub_eq_zero_of_le hn]
        simp
      · rw [full_read_loop, if_neg hn]
        exact ih acc hrest
    | fail => exact absurd rfl (h .fail (List.mem_cons_self _ _)).1
    | data bs =>
      cases bs with
      | nil => exact absurd rfl (h _ (List.mem_cons_self _ _)).2
      | cons b bs =>
        rw [show concat_data (ReadEv.data (b :: bs) :: rest)
            = (b :: bs) ++ concat_data rest from rfl]
        by_cases hn : n ≤ acc.length
        · rw [full_read_loop, if_pos hn, Nat.sub_eq_zero_of_le hn]
          simp
        · rw [full_read_loop, if_neg hn, ih _ hrest]
          rw [List.take_append_eq_append_take]
          have hk : n - (acc ++ (b :: bs).take (n - acc.length)).length
              = (n - acc.length) - (b :: bs).length := by
            rw [List.length_append, List.length_take]
            omega
          rw [hk, List.append_assoc]

/-- The full-read loop reports an error only when the schedule contains a
genuine (non-EINTR) read failure. -/
lemma full_read_loop_err (m : Nat) :
    ∀ (sched : List ReadEv) (acc : List Nat),
      full_read_loop m acc sched = .err → ReadEv.fail ∈ sched := by
  intro sched
  induction sched with
  | nil =>
    intro acc h
    simp [full_read_loop] at h
  | cons e rest ih =>
    intro acc h
    cases e with
    | intr =>
      rw [full_read_loop] at h
      by_cases hm : m ≤ acc.length
      · rw [if_pos hm] at h
        exact absurd h (by simp)
      · rw [if_neg hm] at h
        exact List.mem_cons_of_mem _ (ih acc h)
    | fail => exact List.mem_cons_self _ _
    | data bs =>
      cases bs with
      | nil =>
        rw [full_read_loop] at h
        exact absurd h (by simp)
      | cons b bs =>
        rw [full_read_loop] at h
        by_cases hm : m ≤ acc.length
        · rw [if_pos hm] at h
          exact absurd h (by simp)
        · rw [if_neg hm] at h
          exact List.mem_cons_of_mem _ (ih _ h)

/-- C8: against any schedule of reads with no hard failure — data in
arbitrary chunks, interleaved with EINTR interruptions — `full_read` (and
`perform_full_read`, the identical loop) accumulates exactly the first `n`
available bytes before returning, so it returns exactly `n` bytes whenever
the source can supply them and returns fewer only when the source reaches
EOF first; and it returns an error only when some read fails with a
non-EINTR error. -/
theorem c8_read_exact (n : Nat) (sched : List ReadEv)
    (hok : ∀ e ∈ sched, e ≠ ReadEv.fail ∧ e ≠ ReadEv.data []) :
    full_read n sched = .ok ((concat_data sched).take n)
  ∧ (n ≤ (concat_data sched).length → ((concat_data sched).take n).length = n)
  ∧ (∀ (m : Nat) (sched2 : List ReadEv), full_read m sched2 = .err →
      ReadEv.fail ∈ sched2) := by
  refine ⟨?_, ?_, ?_⟩
  · have h := full_read_loop_ok n sched [] hok
    simpa [full_read] using h
  · intro hn
    rw [List.length_take]
    omega
  · intro m sched2 h
    exact full_read_loop_err m sched2 [] h

/-- C8 witness: a source delivering single-byte chunks with an interruption
still yields exactly the first 3 bytes. -/
theorem c8_read_exact_witness :
    full_read 3 [ReadEv.data [5], ReadEv.intr, ReadEv.data [6], ReadEv.data [7],
      ReadEv.data [8]] = .ok [5, 6, 7] := by
  have h := (c8_read_exact 3 [ReadEv.data [5], ReadEv.intr, ReadEv.data [6],
    ReadEv.data [7], ReadEv.data [8]] (by decide)).1
  rw [h]
  rfl

/-- `run_local_command` never touches the send history. -/
lemma run_local_command_hist (s : List Nat) (st : InputState) :
    (run_local_command s st).hist = st.hist := by
  unfold run_local_command
  split_ifs <;> rfl

/-- An entry of `tui_hist_push s hist` is an old entry or `s` itself. -/
lemma tui_hist_push_mem {s x : List Nat} {hist : List (List Nat)}
    (hx : x ∈ tui_hist_push s hist) : x ∈ hist ∨ x = s := by
  unfold tui_hist_push at hx
  split_ifs at hx
  · exact Or.inl hx
  · exact Or.inl hx
  · rcases List.mem_append.mp hx with h | h
    · exact Or.inl h
    · exact Or.inr (List.mem_singleton.mp h)
  · rcases List.mem_append.mp hx with h | h
    · exact Or.inl (List.tail_subset _ h)
    · exact Or.inr (List.mem_singleton.mp h)

/-- The ENTER branch either clears the edit buffer or leaves it unchanged. -/
lemma tui_enter_input (st : InputState) (wr : List Bool) :
    (tui_enter st wr).1.input = [] ∨ (tui_enter st wr).1.input = st.input := by
  simp only [tui_enter]
  split_ifs <;> simp

/-- The ENTER branch leaves the history unchanged or pushes the edit buffer. -/
lemma tui_enter_hist (st : InputState) (wr : List Bool) :
    (tui_enter st wr).1.hist = st.hist
  ∨ (tui_enter st wr).1.hist = tui_hist_push st.input st.hist := by
  simp only [tui_enter]
  split_ifs <;> simp [run_local_command_hist]

/-- The ESC branch never touches the send history. -/
lemma tui_esc_hist (s1 s2 : Nat) (st : InputState) :
    (tui_esc_action s1 s2 st).hist = st.hist := by
  simp only [tui_esc_action]
  split_ifs <;> rfl

/-- The ESC branch leaves the edit buffer unchanged, clears it, or recalls a
history entry (truncated to the buffer capacity) into it. -/
lemma tui_esc_input (s1 s2 : Nat) (st : InputState) :
    (tui_esc_action s1 s2 st).input = st.input
  ∨ (tui_esc_action s1 s2 st).input = []
  ∨ ∃ x ∈ st.hist, (tui_esc_action s1 s2 st).input = tui_input_set x := by
  simp only [tui_esc_action]
  split_ifs
  all_goals first
    | exact Or.inl rfl
    | exact Or.inr (Or.inl rfl)
    | (rename_i hidx
       exact Or.inr (Or.inr ⟨st.hist.getD _ [], by
         rw [List.getD_eq_getElem st.hist [] hidx]
         exact List.getElem_mem hidx, rfl⟩))

/-- All bytes printable implies `is_ascii_printable_strict`. -/
lemma printable_of_inv {s : List Nat} (h : ∀ c ∈ s, 32 ≤ c ∧ c ≤ 126) :
    is_ascii_printable_strict s = true := by
  rw [is_ascii_printable_strict, List.all_eq_true]
  intro c hc
  have hb := h c hc
  simp only [Bool.and_eq_true, Bool.not_eq_true', beq_eq_false_iff_ne, ne_eq,
    Bool.or_eq_false_iff, decide_eq_false_iff_not, not_lt]
  omega

/-- The ENTER branch preserves the printable-bytes invariant on the edit
buffer and the history. -/
lemma tui_enter_inv (st : InputState) (wr : List Bool)
    (h1 : ∀ c ∈ st.input, 32 ≤ c ∧ c ≤ 126)
    (h2 : ∀ s ∈ st.hist, ∀ c ∈ s, 32 ≤ c ∧ c ≤ 126) :
    (∀ c ∈ (tui_enter st wr).1.input, 32 ≤ c ∧ c ≤ 126)
  ∧ (∀ s ∈ (tui_enter st wr).1.hist, ∀ c ∈ s, 32 ≤ c ∧ c ≤ 126) := by
  constructor
  · rcases tui_enter_input st wr with h | h <;> rw [h]
    · intro c hc
      exact absurd hc (List.not_mem_nil c)
    · exact h1
  · rcases tui_enter_hist st wr with h | h <;> rw [h]
    · exact h2
    · intro s hs
      rcases tui_hist_push_mem hs with hmem | rfl
      · exact h2 s hmem
      · exact h1

/-- The ESC branch preserves the printable-bytes invariant. -/
lemma tui_esc_inv (s1 s2 : Nat) (st : InputState)
    (h1 : ∀ c ∈ st.input, 32 ≤ c ∧ c ≤ 126)
    (h2 : ∀ s ∈ st.hist, ∀ c ∈ s, 32 ≤ c ∧ c ≤ 126) :
    (∀ c ∈ (tui_esc_action s1 s2 st).input, 32 ≤ c ∧ c ≤ 126)
  ∧ (∀ s ∈ (tui_esc_action s1 s2 st).hist, ∀ c ∈ s, 32 ≤ c ∧ c ≤ 126) := by
  constructor
  · rcases tui_esc_input s1 s2 st with h | h | ⟨x, hx, h⟩ <;> rw [h]
    · exact h1
    · intro c hc
      exact absurd hc (List.not_mem_nil c)
    · intro c hc
      exact h2 x hx c (List.take_subset _ _ hc)
  · rw [tui_esc_hist]
    exact h2

/-- The key-handling loop preserves the printable-bytes invariant on the
edit buffer and the history, for any terminal byte stream and write oracle. -/
lemma tui_loop_send_inv :
    ∀ (N : Nat) (bytes : List Nat), bytes.length ≤ N →
    ∀ (wr : List Bool) (st : InputState),
      (∀ c ∈ st.input, 32 ≤ c ∧ c ≤ 126) →
      (∀ s ∈ st.hist, ∀ c ∈ s, 32 ≤ c ∧ c ≤ 126) →
      (∀ c ∈ (tui_loop_send bytes wr st).input, 32 ≤ c ∧ c ≤ 126)
    ∧ (∀ s ∈ (tui_loop_send bytes wr st).hist, ∀ c ∈ s, 32 ≤ c ∧ c ≤ 126) := by
  intro N
  induction N with
  | zero =>
    intro bytes hb wr st h1 h2
    have hnil : bytes = [] := List.length_eq_zero.mp (Nat.le_zero.mp hb)
    subst hnil
    rw [tui_loop_send]
    exact ⟨h1, h2⟩
  | succ N ih =>
    intro bytes hb wr st h1 h2
    match bytes with
    | [] =>
      rw [tui_loop_send]
      exact ⟨h1, h2⟩
    | c :: rest =>
      have hrest : rest.length ≤ N := by
        rw [List.length_cons] at hb
        omega
      rw [tui_loop_send]
      by_cases hrun : (!st.running) = true
      · rw [if_pos hrun]
        exact ⟨h1, h2⟩
      rw [if_neg hrun]
      by_cases hent : (c = 10 || c = 13) = true
      · rw [if_pos hent]
        have hi := tui_enter_inv st wr h1 h2
        exact ih rest hrest (tui_enter st wr).2 (tui_enter st wr).1 hi.1 hi.2
      rw [if_neg hent]
      by_cases hbsp : (c = 127 || c = 8) = true
      · rw [if_pos hbsp]
        refine ih rest hrest wr _ ?_ h2
        intro x hx
        exact h1 x (List.dropLast_subset _ hx)
      rw [if_neg hbsp]
      by_cases hesc : c = 27
      · rw [if_pos hesc]
        match rest, hrest with
        | [], _ =>
          rw [tui_esc_consume]
          exact ⟨h1, h2⟩
        | [s1], _ =>
          rw [tui_esc_consume]
          exact ⟨h1, h2⟩
        | s1 :: s2 :: r2, hr2 =>
          rw [tui_esc_consume]
          have hi := tui_esc_inv s1 s2 st h1 h2
          refine ih r2 ?_ wr _ hi.1 hi.2
          rw [List.length_cons, List.length_cons] at hr2
          omega
      rw [if_neg hesc]
      by_cases hpr : (32 ≤ c && c ≤ 126) = true
      · rw [if_pos hpr]
        have hc : 32 ≤ c ∧ c ≤ 126 := by
          simp only [Bool.and_eq_true, decide_eq_true_eq] at hpr
          exact hpr
        by_cases hcap : st.input.length < 1023
        · rw [if_pos hcap]
          refine ih rest hrest wr _ ?_ h2
          intro x hx
          rcases List.mem_append.mp hx with h | h
          · exact h1 x h
          · rw [List.mem_singleton.mp h]
            exact hc
        · rw [if_neg hcap]
          exact ih rest hrest wr st h1 h2
      rw [if_neg hpr]
      exact ih rest hrest wr st h1 h2

/-- C9: starting from `tui_loop_send`'s initial state, after any finite
terminal byte stream (and any socket-write outcomes) every byte of the edit
buffer lies in 32..126 — escape sequences are consumed without inserting
bytes, history recall only restores strings built from the edit buffer — so
`is_ascii_printable_strict` holds of every reachable edit buffer and the
non-ASCII/escape rejection branch of send validation can never fire on
keyboard input. -/
theorem c9_input_printable_invariant (bytes : List Nat) (wr : List Bool) :
    (∀ c ∈ (tui_loop_send bytes wr input_init).input, 32 ≤ c ∧ c ≤ 126)
  ∧ (∀ s ∈ (tui_loop_send bytes wr input_init).hist, ∀ c ∈ s, 32 ≤ c ∧ c ≤ 126)
  ∧ is_ascii_printable_strict (tui_loop_send bytes wr input_init).input = true := by
  have h := tui_loop_send_inv bytes.length bytes (Nat.le_refl _) wr input_init
    (by intro c hc; exact absurd hc (List.not_mem_nil c))
    (by intro s hs; exact absurd hs (List.not_mem_nil s))
  exact ⟨h.1, h.2, printable_of_inv h.1⟩

/-- C10: in the TUI, pressing ENTER on a valid, non-command message whose
socket write succeeds changes only the send history (the message is pushed,
the cursor reset) and the edit buffer (cleared): the display state — line
list, line count and scroll — is exactly what it was, so the user's own
message is not locally echoed; and the message becomes visible only through
the receive path, which turns a MESSAGE_RECV echo of it into exactly one
display line carrying the message body. -/
theorem c10_no_local_echo :
    (∀ (st : InputState) (wr : List Bool), st.running = true → st.input ≠ [] →
      is_local_command st.input = false → st.input.length ≤ 1023 →
      is_ascii_printable_strict st.input = true → wr.headD true = true →
      (tui_loop_send [13] wr st).tui = st.tui
    ∧ (tui_loop_send [13] wr st).hist = tui_hist_push st.input st.hist
    ∧ (tui_loop_send [13] wr st).input = []
    ∧ (tui_loop_send [13] wr st).running = true
    ∧ (tui_loop_send [13] wr st).writes = st.writes ++ [send_frame_tui st.input])
  ∧ (∀ (tf : Nat → List Nat) (st2 : TuiRecvState) (f : Message),
      st2.running = true → st2.stopped = false → st2.last_msg ≠ some f →
      f.m_type = MESSAGE_RECV →
      (clientTui_recv_step tf st2 (.bytes MSG_SIZE f)).tui
        = tui_add_line (classify_tui_line tf f) st2.tui
    ∧ (classify_tui_line tf f).text = f.message
    ∧ (classify_tui_line tf f).kind = MESSAGE_RECV) := by
  constructor
  · intro st wr hrun hne hcmd hlen hpr hwr
    have hlen0 : ¬ st.input.length = 0 := by
      simpa [List.length_eq_zero] using hne
    have hnlong : ¬ st.input.length > 1023 := by omega
    have hwr2 : wr.head?.getD true = true := by
      cases wr with
      | nil => rfl
      | cons b wr2 => simpa using hwr
    simp [tui_loop_send, tui_enter, hrun, hlen0, hcmd, hnlong, hpr, hwr2]
  · intro tf st2 f hrun hstop hlast hkind
    have hnd : ¬ f.m_type = DISCONNECT := by
      rw [hkind]
      decide
    refine ⟨?_, ?_, ?_⟩
    · simp [clientTui_recv_step, hrun, hstop, hlast, hnd, MSG_SIZE]
    · simp [classify_tui_line, hkind]
    · simp [classify_tui_line, hkind]

/-- C10 witness: sending "hello" from a state with one display line and a
nonzero scroll leaves the display state untouched, pushes "hello" to the
history, clears the buffer, and writes one MESSAGE_SEND frame; the echoed
MESSAGE_RECV frame then yields exactly one display line with body "hello". -/
theorem c10_no_local_echo_witness :
    (tui_loop_send [13] [true] cex_valid_input_state).tui = cex_valid_input_state.tui
  ∧ (tui_loop_send [13] [true] cex_valid_input_state).hist = [strBytes "hello"]
  ∧ (tui_loop_send [13] [true] cex_valid_input_state).input = []
  ∧ (tui_loop_send [13] [true] cex_valid_input_state).writes
      = [send_frame_tui (strBytes "hello")]
  ∧ (clientTui_recv_step no_timefmt clientTui_recv_init
        (.bytes MSG_SIZE recv_test_msg)).tui
      = tui_add_line (classify_tui_line no_timefmt recv_test_msg)
          clientTui_recv_init.tui := by
  have h := c10_no_local_echo.1 cex_valid_input_state [true] rfl (by decide) (by decide)
    (by decide) (by decide) rfl
  have h2 := c10_no_local_echo.2 no_timefmt clientTui_recv_init recv_test_msg rfl rfl
    (by decide) rfl
  refine ⟨h.1, ?_, h.2.2.1, ?_, h2.1⟩
  · rw [h.2.1]
    decide
  · rw [h.2.2.2.2]
    decide

end MyCord
